import Mathlib

/-!
Verification development for the sonic-stp PVST+ daemon.

This file is a shallow embedding, in Lean 4, of the parts of the daemon
that the checked properties talk about: the polled-timer library
(`stp_timer.c`, `stp_util.c`), the 100 ms tick scheduler
(`stptimer_tick`), the BPDU validation / codec routines
(`stputil_validate_bpdu`, `stputil_validate_pvst_bpdu`,
`stputil_encode_bpdu`, `stputil_decode_bpdu`), the default path-cost
table (`stputil_get_path_cost`), the BPDU-guard and root-guard receive
paths (`stpmgr_protect_process`, `stputil_process_bpdu`), the IPC
instance-index guards of `stp_mgr.c`, and the BPDU transmit counters
(`stputil_send_bpdu`).

Machine integers are embedded as `Nat` with explicit reduction
`% 2^w` exactly where the C code can overflow (31-bit timer bitfield,
32-bit counters).  Byte-order conversions (`htons`/`ntohs`/`htonl`)
are byte swaps on 16/32-bit naturals.  Functions that mutate their
argument through a pointer are embedded as functions returning the
updated value.  The protocol-engine routines that are only declared in
the tree (`make_blocking`, `supercedes_port_info`,
`received_config_bpdu`, `received_tcn_bpdu`) are either modelled from
the specification (marked `Modelled from the spec:`) or abstracted as
explicit continuation parameters, so that theorems about early returns
hold for every possible continuation.
-/

/-- Byte swap of a 16-bit value: the embedding of `htons`/`ntohs`. -/
def bswap16 (v : Nat) : Nat := (v % 256) * 256 + (v / 256) % 256

/-- Byte swap of a 32-bit value: the embedding of `htonl`/`ntohl`. -/
def bswap32 (v : Nat) : Nat :=
  (v % 256) * 2 ^ 24 + (v / 2 ^ 8 % 256) * 2 ^ 16 +
    (v / 2 ^ 16 % 256) * 2 ^ 8 + (v / 2 ^ 24) % 256

/-- LSAP value 0x42 used by 802.1D BPDUs (`l2.h`, enum SAP_TYPES). -/
def LSAP_BRIDGE_SPANNING_TREE_PROTOCOL : Nat := 0x42

/-- LSAP value 0xAA announcing a SNAP header (`l2.h`). -/
def LSAP_SNAP_LLC : Nat := 0xaa

/-- LLC control field value for an unnumbered-information frame (`l2.h`). -/
def UNNUMBERED_INFORMATION : Nat := 3

/-- SNAP protocol id of Cisco PVST+ (`l2.h`, enum SNAP_PROTOCOL_ID). -/
def SNAP_CISCO_PVST_ID : Nat := 0x010b

/-- BPDU type code of a configuration BPDU (`stp_common.h`). -/
def CONFIG_BPDU_TYPE : Nat := 0

/-- BPDU type code of an RSTP BPDU (`stp_common.h`). -/
def RSTP_BPDU_TYPE : Nat := 2

/-- BPDU type code of a topology-change-notification BPDU (`stp_common.h`). -/
def TCN_BPDU_TYPE : Nat := 128

/-- Smallest valid VLAN id (`l2.h`). -/
def MIN_VLAN_ID : Nat := 1

/-- Largest VLAN id accepted by the PVST+ validator (`l2.h`): 4095. -/
def MAX_VLAN_ID : Nat := 4095

/-- Sentinel for a missing VLAN (`l2.h`): `MAX_VLAN_ID + 1`. -/
def VLAN_ID_INVALID : Nat := MAX_VLAN_ID + 1

/-- Default hello time in seconds (`stp.h`). -/
def STP_DFLT_HELLO_TIME : Nat := 2

/-- Minimum hello time in seconds (`stp.h`). -/
def STP_MIN_HELLO_TIME : Nat := 1

/-- MAC address as laid out in `l2.h`: a 32-bit word followed by a
16-bit word. -/
structure MAC_ADDRESS where
  ulong : Nat
  ushort : Nat
deriving DecidableEq

/-- Embedding of the `HOST_TO_NET_MAC`/`NET_TO_HOST_MAC` macros of
`l2.h`: `htonl` on the 32-bit half and `htons` on the 16-bit half. -/
def mac_swap (m : MAC_ADDRESS) : MAC_ADDRESS :=
  { ulong := bswap32 m.ulong, ushort := bswap16 m.ushort }

/-- MAC frame header (`l2.h`); the codec never touches it. -/
structure MAC_HEADER where
  destination_address : MAC_ADDRESS
  source_address : MAC_ADDRESS
  length : Nat
deriving DecidableEq

/-- LLC header of an 802.1D BPDU (`l2.h`). -/
structure LLC_HEADER where
  destination_address_DSAP : Nat
  source_address_SSAP : Nat
  llc_frame_type : Nat
deriving DecidableEq

/-- SNAP header of a PVST+ BPDU (`l2.h`): three LLC bytes, a 3-byte
protocol-id filler holding the OUI, and the 16-bit SNAP protocol id
kept in network byte order. -/
structure SNAP_HEADER where
  destination_address_DSAP : Nat
  source_address_SSAP : Nat
  llc_frame_type : Nat
  protocol_id_filler0 : Nat
  protocol_id_filler1 : Nat
  protocol_id_filler2 : Nat
  protocol_id : Nat
deriving DecidableEq

/-- Bridge identifier (`stp_common.h`): 4-bit priority, 12-bit system
id (together one 16-bit word) and a 48-bit MAC. -/
structure BRIDGE_IDENTIFIER where
  priority : Nat
  system_id : Nat
  address : MAC_ADDRESS
deriving DecidableEq

/-- The 16-bit word formed by the `priority`/`system_id` bitfields, as
the C code reads it through a `UINT16` pointer. -/
def bridge_id_word (b : BRIDGE_IDENTIFIER) : Nat :=
  b.priority * 4096 + b.system_id

/-- Writes a 16-bit word back into the `priority`/`system_id`
bitfields, as the C code does through a `UINT16` pointer. -/
def bridge_id_set_word (b : BRIDGE_IDENTIFIER) (w : Nat) : BRIDGE_IDENTIFIER :=
  { b with priority := w / 4096 % 16, system_id := w % 4096 }

/-- Byte swap of the first 16-bit word of a bridge identifier, used by
the codec (`stputil_encode_bpdu` / `stputil_decode_bpdu`). -/
def bridge_id_swap_word (b : BRIDGE_IDENTIFIER) : BRIDGE_IDENTIFIER :=
  bridge_id_set_word b (bswap16 (bridge_id_word b))

/-- Embedding of `STP_CONFIG_BPDU` (`stp_common.h`).  Multibyte fields
hold whatever byte order the surrounding code put there; the codec
functions below convert them exactly as the C code does. -/
structure STP_CONFIG_BPDU where
  mac_header : MAC_HEADER
  llc_header : LLC_HEADER
  protocol_id : Nat
  protocol_version_id : Nat
  type : Nat
  flags : Nat
  root_id : BRIDGE_IDENTIFIER
  root_path_cost : Nat
  bridge_id : BRIDGE_IDENTIFIER
  port_id : Nat
  message_age : Nat
  max_age : Nat
  hello_time : Nat
  forward_delay : Nat
deriving DecidableEq

/-- Embedding of `PVST_CONFIG_BPDU` (`stp_common.h`). -/
structure PVST_CONFIG_BPDU where
  mac_header : MAC_HEADER
  snap_header : SNAP_HEADER
  protocol_id : Nat
  protocol_version_id : Nat
  type : Nat
  flags : Nat
  root_id : BRIDGE_IDENTIFIER
  root_path_cost : Nat
  bridge_id : BRIDGE_IDENTIFIER
  port_id : Nat
  message_age : Nat
  max_age : Nat
  hello_time : Nat
  forward_delay : Nat
  tag_length : Nat
  vlan_id : Nat
deriving DecidableEq

/-- Embedding of `stputil_validate_bpdu` (`stp_util.c`).  Returns the
verdict together with the (possibly hello-time-clamped) frame, since
the C function overwrites `hello_time` through its pointer argument. -/
def stputil_validate_bpdu (bpdu : STP_CONFIG_BPDU) : Bool × STP_CONFIG_BPDU :=
  if bpdu.llc_header.destination_address_DSAP ≠ LSAP_BRIDGE_SPANNING_TREE_PROTOCOL ∨
     bpdu.llc_header.source_address_SSAP ≠ LSAP_BRIDGE_SPANNING_TREE_PROTOCOL ∨
     bpdu.llc_header.llc_frame_type ≠ UNNUMBERED_INFORMATION then
    (false, bpdu)
  else if bpdu.type ≠ CONFIG_BPDU_TYPE ∧ bpdu.type ≠ TCN_BPDU_TYPE then
    (false, bpdu)
  else if bpdu.type ≠ TCN_BPDU_TYPE ∧ bswap16 bpdu.hello_time < STP_MIN_HELLO_TIME * 256 then
    (true, { bpdu with hello_time := bswap16 (STP_DFLT_HELLO_TIME * 256) })
  else
    (true, bpdu)

/-- Embedding of `stputil_validate_pvst_bpdu` (`stp_util.c`).  The C
function converts `vlan_id` and `tag_length` to host order in place
before checking them, and may clamp `hello_time`; the returned frame
reflects those in-place writes. -/
def stputil_validate_pvst_bpdu (bpdu : PVST_CONFIG_BPDU) : Bool × PVST_CONFIG_BPDU :=
  if bpdu.snap_header.destination_address_DSAP ≠ LSAP_SNAP_LLC ∨
     bpdu.snap_header.source_address_SSAP ≠ LSAP_SNAP_LLC ∨
     bpdu.snap_header.llc_frame_type ≠ UNNUMBERED_INFORMATION ∨
     bpdu.snap_header.protocol_id_filler0 ≠ 0x00 ∨
     bpdu.snap_header.protocol_id_filler1 ≠ 0x00 ∨
     bpdu.snap_header.protocol_id_filler2 ≠ 0x0c ∨
     bswap16 bpdu.snap_header.protocol_id ≠ SNAP_CISCO_PVST_ID ∨
     bswap16 bpdu.protocol_id ≠ 0 then
    (false, bpdu)
  else if bpdu.type ≠ CONFIG_BPDU_TYPE ∧ bpdu.type ≠ TCN_BPDU_TYPE then
    (false, bpdu)
  else if bpdu.type ≠ TCN_BPDU_TYPE then
    let bpdu := { bpdu with vlan_id := bswap16 bpdu.vlan_id,
                            tag_length := bswap16 bpdu.tag_length }
    if bpdu.tag_length ≠ 2 ∨ bpdu.vlan_id < MIN_VLAN_ID ∨ bpdu.vlan_id > MAX_VLAN_ID then
      (false, bpdu)
    else if bswap16 bpdu.hello_time < STP_MIN_HELLO_TIME * 256 then
      (true, { bpdu with hello_time := bswap16 (STP_DFLT_HELLO_TIME * 256) })
    else
      (true, bpdu)
  else
    (true, bpdu)

/-- Embedding of `stputil_encode_bpdu` (`stp_util.c`): `htons` the
protocol id, and for Config/RSTP frames byte-swap the identifiers, the
path cost, the port id and the four timer fields.  No shift is applied
to the timer fields. -/
def stputil_encode_bpdu (bpdu : STP_CONFIG_BPDU) : STP_CONFIG_BPDU :=
  let bpdu := { bpdu with protocol_id := bswap16 bpdu.protocol_id }
  if bpdu.type = CONFIG_BPDU_TYPE ∨ bpdu.type = RSTP_BPDU_TYPE then
    { bpdu with
      root_id := bridge_id_swap_word { bpdu.root_id with address := mac_swap bpdu.root_id.address },
      root_path_cost := bswap32 bpdu.root_path_cost,
      bridge_id := bridge_id_swap_word { bpdu.bridge_id with address := mac_swap bpdu.bridge_id.address },
      port_id := bswap16 bpdu.port_id,
      message_age := bswap16 bpdu.message_age,
      max_age := bswap16 bpdu.max_age,
      hello_time := bswap16 bpdu.hello_time,
      forward_delay := bswap16 bpdu.forward_delay }
  else
    bpdu

/-- Embedding of `stputil_decode_bpdu` (`stp_util.c`): `ntohs` the
protocol id, and for Config/RSTP frames byte-swap the identifiers, the
path cost and the port id; the four timer fields are byte-swapped and
then shifted right by 8 bits (wire 1/256-second units to seconds). -/
def stputil_decode_bpdu (bpdu : STP_CONFIG_BPDU) : STP_CONFIG_BPDU :=
  let bpdu := { bpdu with protocol_id := bswap16 bpdu.protocol_id }
  if bpdu.type = CONFIG_BPDU_TYPE ∨ bpdu.type = RSTP_BPDU_TYPE then
    { bpdu with
      root_id := bridge_id_swap_word { bpdu.root_id with address := mac_swap bpdu.root_id.address },
      root_path_cost := bswap32 bpdu.root_path_cost,
      bridge_id := bridge_id_swap_word { bpdu.bridge_id with address := mac_swap bpdu.bridge_id.address },
      port_id := bswap16 bpdu.port_id,
      message_age := bswap16 bpdu.message_age / 256,
      max_age := bswap16 bpdu.max_age / 256,
      hello_time := bswap16 bpdu.hello_time / 256,
      forward_delay := bswap16 bpdu.forward_delay / 256 }
  else
    bpdu

/-- Embedding of the `TIMER` bitfield struct of `stp_timer.h`: a 1-bit
active flag and a 31-bit tick counter. -/
structure TIMER where
  active : Bool
  value : Nat
deriving DecidableEq

/-- Embedding of `start_timer` (`stp_timer.c`): activates the timer
and stores the start value in the 31-bit `value` bitfield. -/
def start_timer (v : Nat) : TIMER :=
  { active := true, value := v % 2 ^ 31 }

/-- Embedding of `stop_timer` (`stp_timer.c`). -/
def stop_timer : TIMER :=
  { active := false, value := 0 }

/-- Embedding of `timer_expired` (`stp_timer.c`): if the timer is
active, increment the 31-bit value; once the value reaches the limit,
stop the timer and report expiry.  Returns the verdict and the updated
timer (the C function updates it through its pointer argument). -/
def timer_expired (t : TIMER) (timer_limit : Nat) : Bool × TIMER :=
  if t.active then
    let v := (t.value + 1) % 2 ^ 31
    if v ≥ timer_limit then (true, stop_timer)
    else (false, { t with value := v })
  else
    (false, t)

/-- Embedding of the `STP_SECONDS_TO_TICKS` macro of `stp.h`: a left
shift by one on a `UINT32`, that is multiplication by 2 modulo 2^32. -/
def STP_SECONDS_TO_TICKS (x : Nat) : Nat := (x * 2) % 2 ^ 32

/-- Embedding of the `STP_TICKS_TO_SECONDS` macro of `stp.h`: a right
shift by one. -/
def STP_TICKS_TO_SECONDS (x : Nat) : Nat := x / 2

/-- Embedding of `stptimer_start` (`stp_util.c`): converts the start
value from seconds and starts the timer. -/
def stptimer_start (start_value_in_seconds : Nat) : TIMER :=
  start_timer (STP_SECONDS_TO_TICKS start_value_in_seconds)

/-- Embedding of `stptimer_expired` (`stp_util.c`): converts the limit
from seconds and polls the timer. -/
def stptimer_expired (t : TIMER) (timer_limit_in_seconds : Nat) : Bool × TIMER :=
  timer_expired t (STP_SECONDS_TO_TICKS timer_limit_in_seconds)

/-- Timer state after `n` calls of `stptimer_expired` with a fixed
limit in seconds, threading the in-place update of the C code. -/
def stptimer_after_calls (t : TIMER) (limit_in_seconds : Nat) : Nat → TIMER
  | 0 => t
  | n + 1 => (stptimer_expired (stptimer_after_calls t limit_in_seconds n) limit_in_seconds).2

/-- Verdict of call number `n + 1` of `stptimer_expired` with a fixed
limit in seconds on a timer that started as `t`. -/
def stptimer_call_result (t : TIMER) (limit_in_seconds : Nat) (n : Nat) : Bool :=
  (stptimer_expired (stptimer_after_calls t limit_in_seconds n) limit_in_seconds).1

/-- Instance lifecycle states (`stp.h`, enum STP_CLASS_STATE). -/
inductive STP_CLASS_STATE where
  | free
  | config
  | active
deriving DecidableEq

/-- One iteration layer of the `for (i = tick; i < maxInstances;
i += 5)` loop of `stptimer_tick` (`stp_util.c`).  The loop index is a
`UINT16`, so `i += 5` wraps modulo 2^16.  The structural `fuel`
argument only bounds the recursion depth: because stepping by 5 cycles
through all 2^16 residues (gcd 5 2^16 = 1), the C loop reaches an
index `≥ maxInstances` within 2^16 iterations for every
`UINT16`-representable `maxInstances`, so `stptimer_tick_loop` below,
which supplies fuel 2^16, never truncates the loop. -/
def stptimer_tick_loop_aux (fuel i maxInstances : Nat) : List Nat :=
  match fuel with
  | 0 => []
  | fuel + 1 =>
      if i < maxInstances then
        i :: stptimer_tick_loop_aux fuel ((i + 5) % 65536) maxInstances
      else []

/-- Index sequence of the `for (i = tick; i < maxInstances; i += 5)`
loop of `stptimer_tick` (`stp_util.c`), with the `UINT16` loop index
wrapping modulo 2^16 on `i += 5`. -/
def stptimer_tick_loop (i maxInstances : Nat) : List Nat :=
  stptimer_tick_loop_aux 65536 i maxInstances

/-- The set of instances on which `stptimer_tick` invokes
`stptimer_update`: when at least one instance is active, the loop
starting at the tick id visits every fifth index and calls
`stptimer_update` on the ACTIVE ones (`stp_util.c`). -/
def stptimer_tick_serviced (states : Nat → STP_CLASS_STATE)
    (active_instances maxInstances tick : Nat) : List Nat :=
  if active_instances ≠ 0 then
    (stptimer_tick_loop tick maxInstances).filter
      (fun i => states i = STP_CLASS_STATE.active)
  else
    []

/-- Tick-id maintenance at the end of `stptimer_tick` (`stp_util.c`):
increment `g_stp_tick_id` and reset it to 0 once it reaches 5. -/
def stptimer_tick_next (tick : Nat) : Nat :=
  if tick + 1 ≥ 5 then 0 else tick + 1

/-- Number of ACTIVE instances among indices below `maxInstances`;
used to relate `g_stp_active_instances` to the instance states. -/
def count_active (states : Nat → STP_CLASS_STATE) (maxInstances : Nat) : Nat :=
  ((List.range maxInstances).filter (fun i => states i = STP_CLASS_STATE.active)).length

/-- Port speeds (`stp_intf.h`, enum STP_PORT_SPEED). -/
inductive STP_PORT_SPEED where
  | speed_none
  | speed_1M
  | speed_10M
  | speed_100M
  | speed_1G
  | speed_10G
  | speed_25G
  | speed_40G
  | speed_100G
  | speed_400G
  | speed_1T
  | speed_10T
  | speed_last
deriving DecidableEq

/-- Embedding of `stputil_get_path_cost` (`stp_util.c`): the switch on
the port speed with the 802.1t and legacy constants of `stp.h`; any
speed outside the eight handled cases falls through to the error
return of 0. -/
def stputil_get_path_cost (port_speed : STP_PORT_SPEED) (extend : Bool) : Nat :=
  match port_speed with
  | STP_PORT_SPEED.speed_10M => if extend then 2000000 else 100
  | STP_PORT_SPEED.speed_100M => if extend then 200000 else 19
  | STP_PORT_SPEED.speed_1G => if extend then 20000 else 4
  | STP_PORT_SPEED.speed_10G => if extend then 2000 else 2
  | STP_PORT_SPEED.speed_25G => if extend then 800 else 1
  | STP_PORT_SPEED.speed_40G => if extend then 500 else 1
  | STP_PORT_SPEED.speed_100G => if extend then 200 else 1
  | STP_PORT_SPEED.speed_400G => if extend then 50 else 1
  | _ => 0

/-- Path-cost table exactly as the specification words it (§4.3),
written independently of the source to compare against
`stputil_get_path_cost`: the eight listed speeds map to the table
values and every other speed maps to 0. -/
def spec_path_cost_table (port_speed : STP_PORT_SPEED) (extend : Bool) : Nat :=
  match port_speed, extend with
  | STP_PORT_SPEED.speed_10M, true => 2000000
  | STP_PORT_SPEED.speed_100M, true => 200000
  | STP_PORT_SPEED.speed_1G, true => 20000
  | STP_PORT_SPEED.speed_10G, true => 2000
  | STP_PORT_SPEED.speed_25G, true => 800
  | STP_PORT_SPEED.speed_40G, true => 500
  | STP_PORT_SPEED.speed_100G, true => 200
  | STP_PORT_SPEED.speed_400G, true => 50
  | STP_PORT_SPEED.speed_10M, false => 100
  | STP_PORT_SPEED.speed_100M, false => 19
  | STP_PORT_SPEED.speed_1G, false => 4
  | STP_PORT_SPEED.speed_10G, false => 2
  | STP_PORT_SPEED.speed_25G, false => 1
  | STP_PORT_SPEED.speed_40G, false => 1
  | STP_PORT_SPEED.speed_100G, false => 1
  | STP_PORT_SPEED.speed_400G, false => 1
  | _, _ => 0

/-- Port forwarding states (`l2.h`, enum L2_PORT_STATE). -/
inductive L2_PORT_STATE where
  | disabled
  | blocking
  | listening
  | learning
  | forwarding
deriving DecidableEq

/-- Bit index `STP_PORT_CLASS_MEMBER_PORT_STATE_BIT` of `stp.h`. -/
def STP_PORT_CLASS_MEMBER_PORT_STATE_BIT : Nat := 1

/-- Bit index `STP_PORT_CLASS_ROOT_PROTECT_BIT` of `stp.h`. -/
def STP_PORT_CLASS_ROOT_PROTECT_BIT : Nat := 15

/-- Modelled from the spec: the bridge-identifier ordering key of §3.
The composite 16-bit priority field is compared first (`priority<<12`
in extend mode, `priority<<12 | systemId` in legacy mode), then the
MAC as a big-endian 48-bit integer.  The defining C code
(`supercedes_port_info` and its comparison helpers in the protocol
engine) is not part of this tree. -/
def bridge_id_key (extend : Bool) (b : BRIDGE_IDENTIFIER) : Nat :=
  (if extend then b.priority * 4096 else b.priority * 4096 + b.system_id) * 2 ^ 48 +
    (b.address.ulong * 2 ^ 16 + b.address.ushort)

/-- View of the fields of `STP_PORT_CLASS` that the root-guard receive
path reads or writes for the port the BPDU arrived on. -/
structure ROOT_GUARD_PORT where
  state : L2_PORT_STATE
  root_protect_timer : TIMER
  modified_fields : Nat
  designated_root : BRIDGE_IDENTIFIER
  designated_cost : Nat
  designated_bridge : BRIDGE_IDENTIFIER
  designated_port : Nat
deriving DecidableEq

/-- Per-instance view used by `stputil_process_bpdu`: the receiving
port's vector, the instance counters, the instance root, and the
projections of the global port masks at the receiving port. -/
structure ROOT_GUARD_STATE where
  port : ROOT_GUARD_PORT
  rx_drop_bpdu : Nat
  last_bpdu_rx_time : Nat
  root_id : BRIDGE_IDENTIFIER
  fastspan_enabled : Bool
  root_protect_configured : Bool
deriving DecidableEq

/-- Modelled from the spec: `supercedes_port_info` (§4.6.3), whose C
definition is in the protocol engine outside this tree.  A received
Config BPDU supersedes the stored port information iff the tuple
(designatedRoot, designatedCost, designatedBridge, designatedPort) of
the message is strictly better lexicographically, using the §3
orderings. -/
def supercedes_port_info (extend : Bool) (p : ROOT_GUARD_PORT)
    (bpdu : STP_CONFIG_BPDU) : Bool :=
  if bridge_id_key extend bpdu.root_id < bridge_id_key extend p.designated_root then true
  else if bridge_id_key extend bpdu.root_id ≠ bridge_id_key extend p.designated_root then false
  else if bpdu.root_path_cost < p.designated_cost then true
  else if bpdu.root_path_cost ≠ p.designated_cost then false
  else if bridge_id_key extend bpdu.bridge_id < bridge_id_key extend p.designated_bridge then true
  else if bridge_id_key extend bpdu.bridge_id ≠ bridge_id_key extend p.designated_bridge then false
  else bpdu.port_id < p.designated_port

/-- Modelled from the spec: `make_blocking` of the protocol engine
(not in this tree).  Per §4.6.6 step 2 and §4.5, it moves the port to
the Blocking state and stages the state change for publication by
setting the port-state dirty bit. -/
def make_blocking (s : ROOT_GUARD_STATE) : ROOT_GUARD_STATE :=
  { s with port := { s.port with
      state := L2_PORT_STATE.blocking,
      modified_fields := s.port.modified_fields ||| 2 ^ STP_PORT_CLASS_MEMBER_PORT_STATE_BIT } }

/-- Embedding of `stputil_root_protect_violation` (`stp_util.c`): move
the port to Blocking; if the root-protect timer is not already
running, log and set the root-protect dirty bit; then start (or
restart) the root-protect timer at 0. -/
def stputil_root_protect_violation (s : ROOT_GUARD_STATE) : ROOT_GUARD_STATE :=
  let s := make_blocking s
  let s :=
    if ¬ s.port.root_protect_timer.active then
      { s with port := { s.port with
          modified_fields := s.port.modified_fields ||| 2 ^ STP_PORT_CLASS_ROOT_PROTECT_BIT } }
    else s
  { s with port := { s.port with root_protect_timer := start_timer 0 } }

/-- Embedding of `stputil_root_protect_validate` (`stp_util.c`): a
non-TCN BPDU that supersedes the stored port information triggers the
root-protect violation and fails validation. -/
def stputil_root_protect_validate (extend : Bool) (s : ROOT_GUARD_STATE)
    (bpdu : STP_CONFIG_BPDU) : ROOT_GUARD_STATE × Bool :=
  if bpdu.type ≠ TCN_BPDU_TYPE ∧ supercedes_port_info extend s.port bpdu then
    (stputil_root_protect_violation s, false)
  else
    (s, true)

/-- Embedding of `stputil_process_bpdu` (`stp_util.c`).  The handlers
`received_config_bpdu` and `received_tcn_bpdu` live in the protocol
engine outside this tree and are taken as continuation parameters, so
every theorem about the early returns holds for all of them.  The
function clears fast span on the port, then applies the root-guard
check (returning after counting the drop when it fires), records the
BPDU arrival time, and dispatches on the BPDU type. -/
def stputil_process_bpdu
    (received_config_bpdu : ROOT_GUARD_STATE → STP_CONFIG_BPDU → ROOT_GUARD_STATE)
    (received_tcn_bpdu : ROOT_GUARD_STATE → STP_CONFIG_BPDU → ROOT_GUARD_STATE)
    (extend : Bool) (now : Nat) (s : ROOT_GUARD_STATE)
    (bpdu : STP_CONFIG_BPDU) : ROOT_GUARD_STATE :=
  let s := if s.fastspan_enabled then { s with fastspan_enabled := false } else s
  if s.root_protect_configured ∧ (stputil_root_protect_validate extend s bpdu).2 = false then
    let s := (stputil_root_protect_validate extend s bpdu).1
    { s with rx_drop_bpdu := (s.rx_drop_bpdu + 1) % 2 ^ 32 }
  else
    let s := { s with last_bpdu_rx_time := now }
    if bpdu.type = TCN_BPDU_TYPE then received_tcn_bpdu s bpdu
    else received_config_bpdu s bpdu

/-- Projection, at the receiving port, of the global protection masks
read and written by `stpmgr_protect_process` (`stp_mgr.c`). -/
structure PROTECT_STATE where
  protect_configured : Bool
  protect_do_disable_configured : Bool
  protect_disabled : Bool
deriving DecidableEq

/-- Outcome of `stpmgr_protect_process` (`stp_mgr.c`): the verdict
(`true` means the BPDU is swallowed by the guard), the updated mask
projection, and whether the downstream was asked to shut the port down
(`stpsync_update_bpdu_guard_shutdown` plus
`stpsync_update_port_admin_state`). -/
structure PROTECT_RESULT where
  is_protect : Bool
  state : PROTECT_STATE
  admin_down_requested : Bool
deriving DecidableEq

/-- Embedding of `stpmgr_protect_process` (`stp_mgr.c`): no guard
configured means no action; with `doDisable` configured, a port not
yet in `protect_disabled_mask` is added to it and admin-downed via the
sync capability; in every configured case the BPDU is swallowed. -/
def stpmgr_protect_process (s : PROTECT_STATE) : PROTECT_RESULT :=
  if ¬ s.protect_configured ∧ ¬ s.protect_do_disable_configured then
    { is_protect := false, state := s, admin_down_requested := false }
  else if s.protect_do_disable_configured then
    if s.protect_disabled then
      { is_protect := true, state := s, admin_down_requested := false }
    else
      { is_protect := true, state := { s with protect_disabled := true },
        admin_down_requested := true }
  else
    { is_protect := true, state := s, admin_down_requested := false }

/-- Embedding of the guard gate of `stpmgr_rx_stp_bpdu` (`stp_mgr.c`):
the first statement runs `stpmgr_protect_process` and returns without
any further processing when it fires.  Everything after the gate
(validation, VLAN demux, the protocol engine) is the continuation
`rest`, which may rewrite the instance state `inst` arbitrarily. -/
def stpmgr_rx_stp_bpdu {α : Type} (rest : α → α) (g : PROTECT_STATE)
    (inst : α) : PROTECT_RESULT × α :=
  let r := stpmgr_protect_process g
  if r.is_protect then (r, inst) else (r, rest inst)

/-- Embedding of the guard gate of `stpmgr_rx_pvst_bpdu`
(`stp_mgr.c`): as for the STP flavour, but a swallowed BPDU also
increments the global `pvst_drop_count`. -/
def stpmgr_rx_pvst_bpdu {α : Type} (rest : Nat → α → Nat × α) (g : PROTECT_STATE)
    (pvst_drop_count : Nat) (inst : α) : PROTECT_RESULT × Nat × α :=
  let r := stpmgr_protect_process g
  if r.is_protect then (r, (pvst_drop_count + 1) % 2 ^ 32, inst)
  else (r, rest pvst_drop_count inst)

/-- Embedding of the instance-index guard of
`stpmgr_process_vlan_config_msg` (`stp_mgr.c`): the message is
rejected when `inst_id > g_stp_instances` (strictly greater). -/
def stpmgr_process_vlan_config_msg_rejects (inst_id max_instances : Nat) : Bool :=
  inst_id > max_instances

/-- Embedding of the instance-index guard of
`stpmgr_process_vlan_intf_config_msg` (`stp_mgr.c`). -/
def stpmgr_process_vlan_intf_config_msg_rejects (inst_id max_instances : Nat) : Bool :=
  inst_id > max_instances

/-- Embedding of the instance-index guard of
`stpmgr_process_vlan_mem_config_msg` (`stp_mgr.c`). -/
def stpmgr_process_vlan_mem_config_msg_rejects (inst_id max_instances : Nat) : Bool :=
  inst_id > max_instances

/-- Modelled from the spec (§3 data model): valid instance indices are
`0 … maxInstances − 1`; the class array allocated by
`stpdata_init_global_structures` (`stp_data.c`) has exactly
`maxInstances` slots, so an access at `maxInstances` is out of
bounds. -/
def instance_index_in_bounds (inst_id max_instances : Nat) : Bool :=
  inst_id < max_instances

/-- Per-instance view needed by `stputil_get_untag_vlan`: the VLAN id
and the untagged-port set of one entry of the class array. -/
structure UNTAG_CLASS where
  vlan_id : Nat
  untag_mask : List Nat
deriving DecidableEq

/-- Embedding of `stputil_get_untag_vlan` (`stp_util.c`): scan the
class array in index order and return the VLAN of the first instance
whose untagged mask holds the port, else `VLAN_ID_INVALID`. -/
def stputil_get_untag_vlan : List UNTAG_CLASS → Nat → Nat
  | [], _ => VLAN_ID_INVALID
  | c :: rest, port => if port ∈ c.untag_mask then c.vlan_id
                       else stputil_get_untag_vlan rest port

/-- Observable outcome of `stputil_send_bpdu`: the two transmit
counters of the port's `STP_PORT_CLASS` and whether
`stp_pkt_tx_handler` was invoked. -/
structure SEND_BPDU_RESULT where
  tx_config_bpdu : Nat
  tx_tcn_bpdu : Nat
  tx_invoked : Bool
deriving DecidableEq

/-- Embedding of `stputil_send_bpdu` (`stp_util.c`): the transmit
counter of the requested type is incremented first; then the untagged
VLAN of the port is looked up, and if there is none the function
returns without invoking the packet transmit capability. -/
def stputil_send_bpdu (classes : List UNTAG_CLASS) (port : Nat) (type : Nat)
    (tx_config_bpdu tx_tcn_bpdu : Nat) : SEND_BPDU_RESULT :=
  let counters :=
    if type = CONFIG_BPDU_TYPE then ((tx_config_bpdu + 1) % 2 ^ 32, tx_tcn_bpdu)
    else (tx_config_bpdu, (tx_tcn_bpdu + 1) % 2 ^ 32)
  let vlan_id := stputil_get_untag_vlan classes port
  if vlan_id = VLAN_ID_INVALID then
    { tx_config_bpdu := counters.1, tx_tcn_bpdu := counters.2, tx_invoked := false }
  else
    { tx_config_bpdu := counters.1, tx_tcn_bpdu := counters.2, tx_invoked := true }

/-- Concrete instance-state assignment used to instantiate the
scheduler theorems: instances 0 and 7 are active, the rest free. -/
def example_states : Nat → STP_CLASS_STATE :=
  fun i => if i = 0 ∨ i = 7 then STP_CLASS_STATE.active else STP_CLASS_STATE.free

/-- Concrete instance-state assignment for the 16-bit wrap
counterexample: every instance is active. -/
def wrap_states : Nat → STP_CLASS_STATE :=
  fun _ => STP_CLASS_STATE.active

/-- The all-zero MAC address, for concrete frames. -/
def zero_mac : MAC_ADDRESS := { ulong := 0, ushort := 0 }

/-- The all-zero MAC frame header, for concrete frames. -/
def zero_mac_header : MAC_HEADER :=
  { destination_address := zero_mac, source_address := zero_mac, length := 0 }

/-- Concrete RSTP frame: well-formed LLC header (DSAP = SSAP = 0x42,
UI) and BPDU type 2 (RSTP), with sane remaining fields. -/
def example_rstp_bpdu : STP_CONFIG_BPDU :=
  { mac_header := zero_mac_header,
    llc_header := { destination_address_DSAP := 0x42, source_address_SSAP := 0x42,
                    llc_frame_type := 3 },
    protocol_id := 0, protocol_version_id := 2, type := 2, flags := 0,
    root_id := { priority := 8, system_id := 0, address := zero_mac },
    root_path_cost := 0,
    bridge_id := { priority := 8, system_id := 0, address := zero_mac },
    port_id := 0x8001,
    message_age := 0, max_age := 20 * 256, hello_time := 2 * 256,
    forward_delay := 15 * 256 }

/-- Concrete PVST+ Config frame in wire byte order with VLAN id 4095:
SNAP header 0xAA/0xAA/UI, OUI 00:00:0C, SNAP protocol id 0x010B
(stored as 0x0B01 in network order), outer protocol id 0, type Config,
tag length `htons 2`, VLAN id `htons 4095`, hello time `htons (2<<8)`. -/
def example_pvst_vlan4095_bpdu : PVST_CONFIG_BPDU :=
  { mac_header := zero_mac_header,
    snap_header := { destination_address_DSAP := 0xaa, source_address_SSAP := 0xaa,
                     llc_frame_type := 3,
                     protocol_id_filler0 := 0x00, protocol_id_filler1 := 0x00,
                     protocol_id_filler2 := 0x0c,
                     protocol_id := bswap16 0x010b },
    protocol_id := 0, protocol_version_id := 0, type := 0, flags := 0,
    root_id := { priority := 8, system_id := 0, address := zero_mac },
    root_path_cost := 0,
    bridge_id := { priority := 8, system_id := 0, address := zero_mac },
    port_id := bswap16 0x8001,
    message_age := 0, max_age := bswap16 (20 * 256),
    hello_time := bswap16 (2 * 256), forward_delay := bswap16 (15 * 256),
    tag_length := bswap16 2, vlan_id := bswap16 4095 }

/-- Concrete host-order Config BPDU whose `message_age` field holds
256 (1 second in wire 1/256-second units), for the codec theorems. -/
def example_codec_bpdu : STP_CONFIG_BPDU :=
  { mac_header := zero_mac_header,
    llc_header := { destination_address_DSAP := 0x42, source_address_SSAP := 0x42,
                    llc_frame_type := 3 },
    protocol_id := 0, protocol_version_id := 0, type := 0, flags := 0,
    root_id := { priority := 8, system_id := 10, address := { ulong := 1, ushort := 2 } },
    root_path_cost := 4,
    bridge_id := { priority := 8, system_id := 10, address := { ulong := 1, ushort := 2 } },
    port_id := 0x8001,
    message_age := 256, max_age := 20 * 256, hello_time := 2 * 256,
    forward_delay := 15 * 256 }

/-- Concrete port view for the root-guard theorems: the stored port
information comes from a priority-8 designated bridge, and the
root-protect timer is already running (value 3) with a clean dirty
mask. -/
def example_root_guard_port : ROOT_GUARD_PORT :=
  { state := L2_PORT_STATE.forwarding,
    root_protect_timer := { active := true, value := 3 },
    modified_fields := 0,
    designated_root := { priority := 8, system_id := 20, address := { ulong := 9, ushort := 9 } },
    designated_cost := 4,
    designated_bridge := { priority := 8, system_id := 20, address := { ulong := 9, ushort := 9 } },
    designated_port := 0x8003 }

/-- Concrete instance view for the root-guard theorems: root guard is
configured on the receiving port. -/
def example_root_guard_state : ROOT_GUARD_STATE :=
  { port := example_root_guard_port,
    rx_drop_bpdu := 0,
    last_bpdu_rx_time := 0,
    root_id := { priority := 8, system_id := 20, address := { ulong := 9, ushort := 9 } },
    fastspan_enabled := false,
    root_protect_configured := true }

/-- Concrete superior Config BPDU for the root-guard theorems: its
root identifier has priority 0, which supersedes the stored
priority-8 information. -/
def example_superior_bpdu : STP_CONFIG_BPDU :=
  { mac_header := zero_mac_header,
    llc_header := { destination_address_DSAP := 0x42, source_address_SSAP := 0x42,
                    llc_frame_type := 3 },
    protocol_id := 0, protocol_version_id := 0, type := 0, flags := 0,
    root_id := { priority := 0, system_id := 20, address := { ulong := 1, ushort := 1 } },
    root_path_cost := 0,
    bridge_id := { priority := 0, system_id := 20, address := { ulong := 1, ushort := 1 } },
    port_id := 0x8001,
    message_age := 1, max_age := 20, hello_time := 2, forward_delay := 15 }

/-- Concrete guard-state for the BPDU-guard theorems: BPDU guard and
its do-disable sibling are configured, the port is not yet shut
down. -/
def example_protect_state : PROTECT_STATE :=
  { protect_configured := true, protect_do_disable_configured := true,
    protect_disabled := false }

/-- Auxiliary: a timer started at 0 that has not yet reached its limit
carries exactly the number of `stptimer_expired` calls made on it. -/
theorem stptimer_after_calls_running (s : Nat) (hs : 2 * s < 2 ^ 31) :
    ∀ k, k < 2 * s →
      stptimer_after_calls (stptimer_start 0) s k = { active := true, value := k } := by
  intro k
  induction k with
  | zero =>
      intro _
      simp [stptimer_after_calls, stptimer_start, start_timer, STP_SECONDS_TO_TICKS]
  | succ n ih =>
      intro hk
      have hn : n < 2 * s := by omega
      have hlim : STP_SECONDS_TO_TICKS s = 2 * s := by
        simp only [STP_SECONDS_TO_TICKS]
        omega
      have hmod : (n + 1) % 2 ^ 31 = n + 1 := Nat.mod_eq_of_lt (by omega)
      simp only [stptimer_after_calls, ih hn, stptimer_expired, timer_expired, hlim, hmod]
      simp only [ge_iff_le]
      rw [if_pos trivial, if_neg (by omega)]

/-- Claim C1, corrected.  `stptimer_start` and `stptimer_expired`
convert seconds to ticks through `STP_SECONDS_TO_TICKS`, which
multiplies by 2 (`(x) << 1`, `stp.h`), not by 10: a timer started at 0
with limit `s` seconds expires on call `2*s` of `stptimer_expired`,
every earlier call returning false. -/
theorem c1_seconds_to_ticks_times_two (s : Nat) (h1 : 1 ≤ s) (h2 : s < 2 ^ 30) :
    STP_SECONDS_TO_TICKS s = 2 * s ∧
    (∀ k, k + 1 < 2 * s → stptimer_call_result (stptimer_start 0) s k = false) ∧
    stptimer_call_result (stptimer_start 0) s (2 * s - 1) = true := by
  have hs : 2 * s < 2 ^ 31 := by omega
  have hlim : STP_SECONDS_TO_TICKS s = 2 * s := by
    simp only [STP_SECONDS_TO_TICKS]
    omega
  refine ⟨hlim, ?_, ?_⟩
  · intro k hk
    have hrun := stptimer_after_calls_running s hs k (by omega)
    have hmod : (k + 1) % 2 ^ 31 = k + 1 := Nat.mod_eq_of_lt (by omega)
    simp only [stptimer_call_result, hrun, stptimer_expired, timer_expired, hlim, hmod]
    simp only [ge_iff_le]
    rw [if_pos trivial, if_neg (by omega)]
  · have hrun := stptimer_after_calls_running s hs (2 * s - 1) (by omega)
    have hmod : (2 * s - 1 + 1) % 2 ^ 31 = 2 * s := by
      have : 2 * s - 1 + 1 = 2 * s := by omega
      rw [this]
      exact Nat.mod_eq_of_lt (by omega)
    simp only [stptimer_call_result, hrun, stptimer_expired, timer_expired, hlim, hmod]
    simp only [ge_iff_le]
    rw [if_pos trivial, if_pos (by omega)]

/-- Witness for C1 at `s = 1`: the conversion gives 2 ticks and the
timer expires on the second call. -/
theorem c1_seconds_to_ticks_times_two_witness :
    STP_SECONDS_TO_TICKS 1 = 2 * 1 ∧
    stptimer_call_result (stptimer_start 0) 1 (2 * 1 - 1) = true :=
  ⟨(c1_seconds_to_ticks_times_two 1 (by decide) (by decide)).1,
   (c1_seconds_to_ticks_times_two 1 (by decide) (by decide)).2.2⟩

/-- Counterexample for C1 as stated: with limit 1 second the claim
predicts expiry after 10 calls; the code converts 1 second to 2 ticks,
the second call already returns true, and call 10 returns false. -/
theorem c1_counterexample :
    STP_SECONDS_TO_TICKS 1 = 2 ∧
    stptimer_call_result (stptimer_start 0) 1 1 = true ∧
    stptimer_call_result (stptimer_start 0) 1 9 = false := by decide

/-- Auxiliary: below the wrap threshold — whenever every index the
loop can visit stays at most 65530, so that `i += 5` never wraps — the
visited index set is the tick's residue class, provided the fuel
covers the remaining iterations. -/
theorem stptimer_tick_loop_aux_mem (maxInstances : Nat) (hmax : maxInstances ≤ 65531) :
    ∀ (fuel i : Nat), maxInstances ≤ i + 5 * fuel →
      ∀ j, j ∈ stptimer_tick_loop_aux fuel i maxInstances ↔
        (i ≤ j ∧ j < maxInstances ∧ (j - i) % 5 = 0) := by
  intro fuel
  induction fuel with
  | zero =>
      intro i hfuel j
      simp only [stptimer_tick_loop_aux, List.not_mem_nil, false_iff]
      omega
  | succ n ih =>
      intro i hfuel j
      simp only [stptimer_tick_loop_aux]
      by_cases h : i < maxInstances
      · rw [if_pos h]
        have hmod : (i + 5) % 65536 = i + 5 := Nat.mod_eq_of_lt (by omega)
        rw [hmod]
        simp only [List.mem_cons]
        rw [ih (i + 5) (by omega) j]
        constructor
        · rintro (rfl | ⟨h1, h2, h3⟩)
          · exact ⟨Nat.le_refl _, h, by omega⟩
          · exact ⟨by omega, h2, by omega⟩
        · rintro ⟨h1, h2, h3⟩
          by_cases hij : j = i
          · exact Or.inl hij
          · exact Or.inr ⟨by omega, h2, by omega⟩
      · rw [if_neg h]
        simp only [List.not_mem_nil, false_iff]
        omega

/-- Auxiliary: the index set visited by the `i = tick; i < max; i += 5`
loop of `stptimer_tick`, valid for `maxInstances ≤ 65531` where the
16-bit loop index cannot wrap before the loop exits. -/
theorem stptimer_tick_loop_mem (maxInstances : Nat) (hmax : maxInstances ≤ 65531) :
    ∀ t i, i ∈ stptimer_tick_loop t maxInstances ↔
      (t ≤ i ∧ i < maxInstances ∧ (i - t) % 5 = 0) := by
  intro t i
  exact stptimer_tick_loop_aux_mem maxInstances hmax 65536 t (by omega) i

/-- Auxiliary: one loop iteration preserves membership of the tail. -/
theorem stptimer_tick_loop_aux_mem_step (fuel i maxInstances x : Nat)
    (h : i < maxInstances)
    (hx : x ∈ stptimer_tick_loop_aux fuel ((i + 5) % 65536) maxInstances) :
    x ∈ stptimer_tick_loop_aux (fuel + 1) i maxInstances := by
  simp only [stptimer_tick_loop_aux]
  rw [if_pos h]
  exact List.mem_cons_of_mem _ hx

/-- Auxiliary: running the loop through `n` in-range iterations — the
index after `k` steps being `(i + 5k) mod 2^16` — preserves
membership of whatever the loop visits afterwards. -/
theorem stptimer_tick_loop_aux_mem_after :
    ∀ (n fuel i maxInstances x : Nat), i < 65536 → n ≤ fuel →
      (∀ k, k < n → (i + 5 * k) % 65536 < maxInstances) →
      x ∈ stptimer_tick_loop_aux (fuel - n) ((i + 5 * n) % 65536) maxInstances →
      x ∈ stptimer_tick_loop_aux fuel i maxInstances := by
  intro n
  induction n with
  | zero =>
      intro fuel i maxInstances x hi hn hall hx
      rw [Nat.mul_zero, Nat.add_zero, Nat.mod_eq_of_lt hi] at hx
      simpa using hx
  | succ n ih =>
      intro fuel i maxInstances x hi hn hall hx
      have h0 : i < maxInstances := by
        have h := hall 0 (by omega)
        rwa [Nat.mul_zero, Nat.add_zero, Nat.mod_eq_of_lt hi] at h
      obtain ⟨fuel2, rfl⟩ : ∃ f, fuel = f + 1 := ⟨fuel - 1, by omega⟩
      apply stptimer_tick_loop_aux_mem_step fuel2 i maxInstances x h0
      apply ih fuel2 ((i + 5) % 65536) maxInstances x (Nat.mod_lt _ (by omega)) (by omega)
      · intro k hk
        have h := hall (k + 1) (by omega)
        rw [Nat.mod_add_mod]
        have harith : i + 5 + 5 * k = i + 5 * (k + 1) := by ring
        rw [harith]
        exact h
      · have he1 : ((i + 5) % 65536 + 5 * n) % 65536 = (i + 5 * (n + 1)) % 65536 := by
          rw [Nat.mod_add_mod]
          congr 1
          ring
        have he2 : fuel2 + 1 - (n + 1) = fuel2 - n := by omega
        rw [he1]
        rwa [he2] at hx

/-- Auxiliary: when `g_stp_active_instances` agrees with the number of
ACTIVE instances and the instance count is below the 16-bit wrap
threshold, an instance is serviced by `stptimer_tick` exactly when its
index matches the tick id modulo 5 and it is ACTIVE. -/
theorem stptimer_tick_serviced_mem (states : Nat → STP_CLASS_STATE)
    (maxInstances t i : Nat) (ht : t < 5) (hmax : maxInstances ≤ 65531) :
    i ∈ stptimer_tick_serviced states (count_active states maxInstances) maxInstances t ↔
      (i < maxInstances ∧ i % 5 = t % 5 ∧ states i = STP_CLASS_STATE.active) := by
  unfold stptimer_tick_serviced
  by_cases hz : count_active states maxInstances = 0
  · rw [if_neg (by omega)]
    simp only [List.not_mem_nil, false_iff]
    rintro ⟨h1, _, h3⟩
    have hmem : i ∈ (List.range maxInstances).filter
        (fun j => states j = STP_CLASS_STATE.active) := by
      refine List.mem_filter.mpr ⟨List.mem_range.mpr h1, ?_⟩
      simp [h3]
    have : (List.range maxInstances).filter
        (fun j => states j = STP_CLASS_STATE.active) = [] := by
      have := hz
      unfold count_active at this
      exact List.eq_nil_of_length_eq_zero this
    rw [this] at hmem
    exact List.not_mem_nil i hmem
  · rw [if_pos hz]
    rw [List.mem_filter, stptimer_tick_loop_mem maxInstances hmax t i]
    simp only [decide_eq_true_eq]
    constructor
    · rintro ⟨⟨h1, h2, h3⟩, h4⟩
      exact ⟨h2, by omega, h4⟩
    · rintro ⟨h1, h2, h3⟩
      exact ⟨⟨by omega, h1, by omega⟩, h3⟩

/-- Auxiliary: iterating the tick-id update from a valid tick id walks
through the residues modulo 5. -/
theorem stptimer_tick_next_iterate :
    ∀ (k t : Nat), t < 5 → stptimer_tick_next^[k] t = (t + k) % 5 := by
  intro k
  induction k with
  | zero =>
      intro t ht
      simp only [Function.iterate_zero, id_eq]
      omega
  | succ n ih =>
      intro t ht
      rw [Function.iterate_succ_apply]
      have hnext : stptimer_tick_next t = (t + 1) % 5 := by
        unfold stptimer_tick_next
        split_ifs <;> omega
      have hlt : stptimer_tick_next t < 5 := by
        unfold stptimer_tick_next
        split_ifs <;> omega
      rw [ih (stptimer_tick_next t) hlt, hnext]
      omega

/-- Claim C2, corrected.  With the tick id in its maintained range
0..4, `g_stp_active_instances` consistent with the instance states,
and `maxInstances ≤ 65531` — below the threshold at which the 16-bit
loop index wraps — `stptimer_tick` invokes `stptimer_update` exactly
on the ACTIVE instances whose index is congruent to the tick id modulo
5; the tick id advances cyclically through 0..4; and every ACTIVE
instance is serviced within any 5 consecutive ticks.  For
`maxInstances ≥ 65532` the `UINT16` index wraps modulo 2^16 and a tick
can additionally service instances outside its residue class, so the
unbounded claim is false of the program. -/
theorem c2_tick_round_robin (states : Nat → STP_CLASS_STATE)
    (maxInstances tick : Nat) (htick : tick < 5) (hmax : maxInstances ≤ 65531) :
    (∀ i, i ∈ stptimer_tick_serviced states (count_active states maxInstances)
        maxInstances tick ↔
      (i < maxInstances ∧ i % 5 = tick % 5 ∧ states i = STP_CLASS_STATE.active)) ∧
    stptimer_tick_next tick = (tick + 1) % 5 ∧
    (∀ i, i < maxInstances → states i = STP_CLASS_STATE.active →
      ∃ k, k < 5 ∧ i ∈ stptimer_tick_serviced states (count_active states maxInstances)
        maxInstances (stptimer_tick_next^[k] tick)) := by
  refine ⟨fun i => stptimer_tick_serviced_mem states maxInstances tick i htick hmax, ?_, ?_⟩
  · unfold stptimer_tick_next
    split_ifs <;> omega
  · intro i hi hactive
    refine ⟨(i % 5 + 5 - tick) % 5, Nat.mod_lt _ (by omega), ?_⟩
    rw [stptimer_tick_next_iterate _ tick htick]
    rw [stptimer_tick_serviced_mem states maxInstances _ i (Nat.mod_lt _ (by omega)) hmax]
    exact ⟨hi, by omega, hactive⟩

/-- Witness for C2 with two active instances (0 and 7), nine
instances, tick id 2: instance 7 is serviced exactly on this tick. -/
theorem c2_tick_round_robin_witness :
    (2 : Nat) < 5 ∧ (9 : Nat) ≤ 65531 ∧
    (7 ∈ stptimer_tick_serviced example_states (count_active example_states 9) 9 2 ↔
      (7 < 9 ∧ 7 % 5 = 2 % 5 ∧ example_states 7 = STP_CLASS_STATE.active)) :=
  ⟨by decide, by decide, (c2_tick_round_robin example_states 9 2 (by decide) (by decide)).1 7⟩

/-- Counterexample for C2 as stated: with 65532 instances, all ACTIVE,
on tick id 1 the loop index climbs 1, 6, …, 65531 and then `i += 5`
wraps to 0 on the 16-bit index, so instance 0 — whose index is NOT
congruent to 1 modulo 5 — is serviced by this tick, refuting the
claimed serviced-set equality at a `UINT16`-representable instance
count (the IPC InitReady handler rejects only 0). -/
theorem c2_counterexample :
    (0 : Nat) ∈ stptimer_tick_serviced wrap_states (count_active wrap_states 65532) 65532 1 ∧
    ¬ ((0 : Nat) % 5 = 1 % 5) := by
  constructor
  · unfold stptimer_tick_serviced
    have hcount : count_active wrap_states 65532 ≠ 0 := by
      have hmem : (0 : Nat) ∈ (List.range 65532).filter
          (fun j => wrap_states j = STP_CLASS_STATE.active) :=
        List.mem_filter.mpr ⟨List.mem_range.mpr (by omega), by simp [wrap_states]⟩
      unfold count_active
      intro hlen
      rw [List.eq_nil_of_length_eq_zero hlen] at hmem
      exact List.not_mem_nil _ hmem
    rw [if_pos hcount]
    refine List.mem_filter.mpr ⟨?_, by simp [wrap_states]⟩
    unfold stptimer_tick_loop
    apply stptimer_tick_loop_aux_mem_after 13107 65536 1 65532 0 (by omega) (by omega)
    · intro k hk
      have h5 : 1 + 5 * k < 65536 := by omega
      rw [Nat.mod_eq_of_lt h5]
      omega
    · have h1 : (1 + 5 * 13107) % 65536 = 0 := by norm_num
      rw [h1]
      have h2 : (65536 : Nat) - 13107 = 52428 + 1 := by norm_num
      rw [h2]
      have hstep : stptimer_tick_loop_aux (52428 + 1) 0 65532
          = 0 :: stptimer_tick_loop_aux 52428 ((0 + 5) % 65536) 65532 := rfl
      rw [hstep]
      exact List.mem_cons_self _ _
  · decide

/-- Auxiliary: field-level description of
`stputil_root_protect_violation`: the port ends Blocking with the
root-protect timer freshly started at 0, instance counters and root
are untouched, and the root-protect dirty bit is set exactly when the
timer was not already running (or the bit was already pending). -/
theorem stputil_root_protect_violation_spec (s : ROOT_GUARD_STATE) :
    (stputil_root_protect_violation s).port.state = L2_PORT_STATE.blocking ∧
    (stputil_root_protect_violation s).port.root_protect_timer
      = { active := true, value := 0 } ∧
    (stputil_root_protect_violation s).rx_drop_bpdu = s.rx_drop_bpdu ∧
    (stputil_root_protect_violation s).root_id = s.root_id ∧
    (Nat.testBit (stputil_root_protect_violation s).port.modified_fields
        STP_PORT_CLASS_ROOT_PROTECT_BIT ↔
      (s.port.root_protect_timer.active = false ∨
        Nat.testBit s.port.modified_fields STP_PORT_CLASS_ROOT_PROTECT_BIT)) := by
  by_cases hact : s.port.root_protect_timer.active
  · simp [stputil_root_protect_violation, make_blocking, start_timer, hact,
      Nat.testBit_or, STP_PORT_CLASS_MEMBER_PORT_STATE_BIT, STP_PORT_CLASS_ROOT_PROTECT_BIT,
      (show Nat.testBit 2 15 = false by decide), (show Nat.testBit 32768 15 = true by decide)]
  · simp [stputil_root_protect_violation, make_blocking, start_timer, hact,
      Nat.testBit_or, STP_PORT_CLASS_MEMBER_PORT_STATE_BIT, STP_PORT_CLASS_ROOT_PROTECT_BIT,
      (show Nat.testBit 2 15 = false by decide), (show Nat.testBit 32768 15 = true by decide)]

/-- Claim C3, corrected.  A Config BPDU that supersedes the stored
port information and arrives on a root-guarded port moves the port to
Blocking, starts the root-protect timer at 0, increments the
instance's `rx_drop_bpdu`, and performs no further processing, for
every possible behaviour of the protocol-engine handlers — in
particular the instance root is unchanged.  The root-protect dirty bit
that stages the "root-inc" publication, however, is set exactly when
the root-protect timer was not already running (or the bit was already
pending), not on every such reception. -/
theorem c3_root_guard_violation
    (received_config_bpdu received_tcn_bpdu :
      ROOT_GUARD_STATE → STP_CONFIG_BPDU → ROOT_GUARD_STATE)
    (extend : Bool) (now : Nat) (s : ROOT_GUARD_STATE) (bpdu : STP_CONFIG_BPDU)
    (hguard : s.root_protect_configured = true)
    (htype : bpdu.type = CONFIG_BPDU_TYPE)
    (hsup : supercedes_port_info extend s.port bpdu = true) :
    (stputil_process_bpdu received_config_bpdu received_tcn_bpdu extend now s bpdu).port.state
        = L2_PORT_STATE.blocking ∧
    (stputil_process_bpdu received_config_bpdu received_tcn_bpdu extend now s bpdu).port.root_protect_timer
        = { active := true, value := 0 } ∧
    (stputil_process_bpdu received_config_bpdu received_tcn_bpdu extend now s bpdu).rx_drop_bpdu
        = (s.rx_drop_bpdu + 1) % 2 ^ 32 ∧
    (stputil_process_bpdu received_config_bpdu received_tcn_bpdu extend now s bpdu).root_id
        = s.root_id ∧
    (Nat.testBit (stputil_process_bpdu received_config_bpdu received_tcn_bpdu extend now s bpdu).port.modified_fields
        STP_PORT_CLASS_ROOT_PROTECT_BIT ↔
      (s.port.root_protect_timer.active = false ∨
        Nat.testBit s.port.modified_fields STP_PORT_CLASS_ROOT_PROTECT_BIT)) := by
  have htcn : bpdu.type ≠ TCN_BPDU_TYPE := by
    rw [htype]
    decide
  have hs1port : (if s.fastspan_enabled then { s with fastspan_enabled := false } else s).port
      = s.port := by
    split_ifs <;> rfl
  have hs1cfg : (if s.fastspan_enabled then { s with fastspan_enabled := false } else s).root_protect_configured
      = true := by
    split_ifs <;> exact hguard
  have hs1drop : (if s.fastspan_enabled then { s with fastspan_enabled := false } else s).rx_drop_bpdu
      = s.rx_drop_bpdu := by
    split_ifs <;> rfl
  have hs1root : (if s.fastspan_enabled then { s with fastspan_enabled := false } else s).root_id
      = s.root_id := by
    split_ifs <;> rfl
  have hvalid : stputil_root_protect_validate extend
      (if s.fastspan_enabled then { s with fastspan_enabled := false } else s) bpdu
      = (stputil_root_protect_violation
          (if s.fastspan_enabled then { s with fastspan_enabled := false } else s), false) := by
    unfold stputil_root_protect_validate
    rw [if_pos ⟨htcn, by rw [hs1port]; exact hsup⟩]
  have hspec := stputil_root_protect_violation_spec
    (if s.fastspan_enabled then { s with fastspan_enabled := false } else s)
  rw [hs1port, hs1drop, hs1root] at hspec
  obtain ⟨h1, h2, h3, h4, h5⟩ := hspec
  have key : stputil_process_bpdu received_config_bpdu received_tcn_bpdu extend now s bpdu
      = { stputil_root_protect_violation
            (if s.fastspan_enabled then { s with fastspan_enabled := false } else s) with
          rx_drop_bpdu :=
            ((stputil_root_protect_violation
              (if s.fastspan_enabled then { s with fastspan_enabled := false } else s)).rx_drop_bpdu
              + 1) % 2 ^ 32 } := by
    simp only [stputil_process_bpdu, hvalid]
    rw [if_pos ⟨hs1cfg, trivial⟩]
  rw [key]
  exact ⟨h1, h2, by rw [show ({ stputil_root_protect_violation
      (if s.fastspan_enabled then { s with fastspan_enabled := false } else s) with
      rx_drop_bpdu := ((stputil_root_protect_violation
        (if s.fastspan_enabled then { s with fastspan_enabled := false } else s)).rx_drop_bpdu
        + 1) % 2 ^ 32 } : ROOT_GUARD_STATE).rx_drop_bpdu
      = ((stputil_root_protect_violation
        (if s.fastspan_enabled then { s with fastspan_enabled := false } else s)).rx_drop_bpdu
        + 1) % 2 ^ 32 from rfl, h3], h4, h5⟩

/-- Witness for C3 at the concrete superior BPDU and root-guarded
state defined above. -/
theorem c3_root_guard_violation_witness :
    example_root_guard_state.root_protect_configured = true ∧
    (stputil_process_bpdu (fun s _ => s) (fun s _ => s) true 7
        example_root_guard_state example_superior_bpdu).port.state
      = L2_PORT_STATE.blocking :=
  ⟨rfl,
   (c3_root_guard_violation (fun s _ => s) (fun s _ => s) true 7
      example_root_guard_state example_superior_bpdu rfl rfl (by decide)).1⟩

/-- Counterexample for C3 as stated: at a root-guarded port whose
root-protect timer is already running (value 3) with a clean dirty
mask, a superseding Config BPDU is dropped and the port blocked, but
the root-protect field is NOT marked dirty — no "root-inc" publication
is staged by this reception. -/
theorem c3_counterexample :
    example_root_guard_state.root_protect_configured = true ∧
    example_superior_bpdu.type = CONFIG_BPDU_TYPE ∧
    supercedes_port_info true example_root_guard_state.port example_superior_bpdu = true ∧
    example_root_guard_state.port.root_protect_timer.active = true ∧
    example_root_guard_state.port.modified_fields = 0 ∧
    Nat.testBit (stputil_process_bpdu (fun s _ => s) (fun s _ => s) true 7
        example_root_guard_state example_superior_bpdu).port.modified_fields
      STP_PORT_CLASS_ROOT_PROTECT_BIT = false := by decide

/-- Claim C4, confirmed.  With BPDU guard and its do-disable sibling
configured on the receiving port, both receive paths swallow the BPDU
before any validation or protocol processing: for every possible
continuation the instance state is returned untouched, the port ends
up in `protect_disabled_mask`, and the downstream admin-down request
is issued exactly when the port was not already shut down (the PVST+
path additionally counts the drop). -/
theorem c4_bpdu_guard_do_disable {α β : Type}
    (g : PROTECT_STATE)
    (hP : g.protect_configured = true)
    (hD : g.protect_do_disable_configured = true)
    (rest : α → α) (inst : α)
    (restp : Nat → β → Nat × β) (pvst_drop_count : Nat) (instp : β) :
    (stpmgr_rx_stp_bpdu rest g inst).2 = inst ∧
    (stpmgr_rx_stp_bpdu rest g inst).1.state.protect_disabled = true ∧
    (stpmgr_rx_stp_bpdu rest g inst).1.admin_down_requested = !g.protect_disabled ∧
    (stpmgr_rx_pvst_bpdu restp g pvst_drop_count instp).2.2 = instp ∧
    (stpmgr_rx_pvst_bpdu restp g pvst_drop_count instp).1.state.protect_disabled = true ∧
    (stpmgr_rx_pvst_bpdu restp g pvst_drop_count instp).1.admin_down_requested
      = !g.protect_disabled ∧
    (stpmgr_rx_pvst_bpdu restp g pvst_drop_count instp).2.1
      = (pvst_drop_count + 1) % 2 ^ 32 := by
  have hproc : stpmgr_protect_process g =
      if g.protect_disabled then
        { is_protect := true, state := g, admin_down_requested := false }
      else
        { is_protect := true, state := { g with protect_disabled := true },
          admin_down_requested := true } := by
    unfold stpmgr_protect_process
    rw [if_neg (by simp [hP]), if_pos hD]
  by_cases hdis : g.protect_disabled
  · simp [stpmgr_rx_stp_bpdu, stpmgr_rx_pvst_bpdu, hproc, hdis]
  · simp [stpmgr_rx_stp_bpdu, stpmgr_rx_pvst_bpdu, hproc, hdis]

/-- Witness for C4 at the concrete guard state (guard and do-disable
configured, port not yet shut down), with identity continuations. -/
theorem c4_bpdu_guard_do_disable_witness :
    (stpmgr_rx_stp_bpdu id example_protect_state (0 : Nat)).2 = 0 ∧
    (stpmgr_rx_stp_bpdu id example_protect_state (0 : Nat)).1.state.protect_disabled = true ∧
    (stpmgr_rx_stp_bpdu id example_protect_state (0 : Nat)).1.admin_down_requested
      = !example_protect_state.protect_disabled :=
  ⟨(c4_bpdu_guard_do_disable example_protect_state rfl rfl id 0
      (fun n b => (n, b)) 0 (0 : Nat)).1,
   (c4_bpdu_guard_do_disable example_protect_state rfl rfl id 0
      (fun n b => (n, b)) 0 (0 : Nat)).2.1,
   (c4_bpdu_guard_do_disable example_protect_state rfl rfl id 0
      (fun n b => (n, b)) 0 (0 : Nat)).2.2.1⟩

/-- Claim C5, corrected.  `stputil_validate_bpdu` accepts a frame iff
its LLC header carries DSAP = SSAP = 0x42 with an unnumbered-
information control byte and the BPDU type is Config or TCN — an RSTP
type code (2) is REJECTED, unlike the claim's accept set.  For
accepted non-TCN frames whose hello time encodes less than 1 second,
the hello-time field is overwritten with the wire encoding of the
2-second default; otherwise the frame is returned unchanged. -/
theorem c5_validate_stp_characterization (bpdu : STP_CONFIG_BPDU) :
    ((stputil_validate_bpdu bpdu).1 = true ↔
      (bpdu.llc_header.destination_address_DSAP = LSAP_BRIDGE_SPANNING_TREE_PROTOCOL ∧
       bpdu.llc_header.source_address_SSAP = LSAP_BRIDGE_SPANNING_TREE_PROTOCOL ∧
       bpdu.llc_header.llc_frame_type = UNNUMBERED_INFORMATION ∧
       (bpdu.type = CONFIG_BPDU_TYPE ∨ bpdu.type = TCN_BPDU_TYPE))) ∧
    ((stputil_validate_bpdu bpdu).1 = true →
      bpdu.type ≠ TCN_BPDU_TYPE →
      bswap16 bpdu.hello_time < STP_MIN_HELLO_TIME * 256 →
      (stputil_validate_bpdu bpdu).2.hello_time = bswap16 (STP_DFLT_HELLO_TIME * 256)) ∧
    ((stputil_validate_bpdu bpdu).1 = true →
      ¬ (bpdu.type ≠ TCN_BPDU_TYPE ∧ bswap16 bpdu.hello_time < STP_MIN_HELLO_TIME * 256) →
      (stputil_validate_bpdu bpdu).2 = bpdu) := by
  unfold stputil_validate_bpdu
  split_ifs with hllc htype hclamp
  · simp only [false_iff]
    refine ⟨?_, fun h => h.elim, fun h => h.elim⟩
    rintro ⟨ha, hb, hc, _⟩
    rcases hllc with h | h | h
    · exact h ha
    · exact h hb
    · exact h hc
  · simp only [false_iff]
    refine ⟨?_, fun h => h.elim, fun h => h.elim⟩
    rintro ⟨_, _, _, ht⟩
    rcases ht with ht | ht
    · exact htype.1 ht
    · exact htype.2 ht
  · push_neg at hllc htype
    refine ⟨?_, ?_, ?_⟩
    · simp only [true_iff]
      refine ⟨hllc.1, hllc.2.1, hllc.2.2, ?_⟩
      by_cases hc : bpdu.type = CONFIG_BPDU_TYPE
      · exact Or.inl hc
      · exact Or.inr (htype hc)
    · intro _ _ _
      rfl
    · intro _ hno
      exact absurd hclamp hno
  · push_neg at hllc htype
    refine ⟨?_, ?_, ?_⟩
    · simp only [true_iff]
      refine ⟨hllc.1, hllc.2.1, hllc.2.2, ?_⟩
      by_cases hc : bpdu.type = CONFIG_BPDU_TYPE
      · exact Or.inl hc
      · exact Or.inr (htype hc)
    · intro _ ht hc
      exact absurd ⟨ht, hc⟩ hclamp
    · intro _ _
      rfl

/-- Witness for C5: the characterization instantiated at the concrete
RSTP frame (valid LLC header, type 2). -/
theorem c5_validate_stp_characterization_witness :
    (stputil_validate_bpdu example_rstp_bpdu).1 = true ↔
      (example_rstp_bpdu.llc_header.destination_address_DSAP
          = LSAP_BRIDGE_SPANNING_TREE_PROTOCOL ∧
       example_rstp_bpdu.llc_header.source_address_SSAP
          = LSAP_BRIDGE_SPANNING_TREE_PROTOCOL ∧
       example_rstp_bpdu.llc_header.llc_frame_type = UNNUMBERED_INFORMATION ∧
       (example_rstp_bpdu.type = CONFIG_BPDU_TYPE ∨
        example_rstp_bpdu.type = TCN_BPDU_TYPE)) :=
  (c5_validate_stp_characterization example_rstp_bpdu).1

/-- Counterexample for C5 as stated: a frame with a well-formed LLC
header and the RSTP type code 2 — inside the claim's accept set — is
rejected by `stputil_validate_bpdu`. -/
theorem c5_counterexample :
    example_rstp_bpdu.llc_header.destination_address_DSAP
        = LSAP_BRIDGE_SPANNING_TREE_PROTOCOL ∧
    example_rstp_bpdu.llc_header.source_address_SSAP
        = LSAP_BRIDGE_SPANNING_TREE_PROTOCOL ∧
    example_rstp_bpdu.llc_header.llc_frame_type = UNNUMBERED_INFORMATION ∧
    example_rstp_bpdu.type = RSTP_BPDU_TYPE ∧
    (stputil_validate_bpdu example_rstp_bpdu).1 = false := by decide

/-- Claim C6, corrected.  `stputil_validate_pvst_bpdu` accepts a frame
iff the SNAP header carries DSAP = SSAP = 0xAA, UI, OUI 00:00:0C and
SNAP protocol id 0x010B, the outer protocol id is 0, the type is
Config or TCN, and for Config frames the (byte-swapped) tag length is
2 and the VLAN id lies in 1..4095 — the upper bound is `MAX_VLAN_ID`
= 4095, not 4094: a Config frame with VLAN id 4095 is accepted. -/
theorem c6_validate_pvst_characterization (bpdu : PVST_CONFIG_BPDU) :
    (stputil_validate_pvst_bpdu bpdu).1 = true ↔
      (bpdu.snap_header.destination_address_DSAP = LSAP_SNAP_LLC ∧
       bpdu.snap_header.source_address_SSAP = LSAP_SNAP_LLC ∧
       bpdu.snap_header.llc_frame_type = UNNUMBERED_INFORMATION ∧
       bpdu.snap_header.protocol_id_filler0 = 0x00 ∧
       bpdu.snap_header.protocol_id_filler1 = 0x00 ∧
       bpdu.snap_header.protocol_id_filler2 = 0x0c ∧
       bswap16 bpdu.snap_header.protocol_id = SNAP_CISCO_PVST_ID ∧
       bswap16 bpdu.protocol_id = 0 ∧
       (bpdu.type = CONFIG_BPDU_TYPE ∨ bpdu.type = TCN_BPDU_TYPE) ∧
       (bpdu.type = CONFIG_BPDU_TYPE →
         (bswap16 bpdu.tag_length = 2 ∧
          MIN_VLAN_ID ≤ bswap16 bpdu.vlan_id ∧
          bswap16 bpdu.vlan_id ≤ MAX_VLAN_ID))) := by
  unfold stputil_validate_pvst_bpdu
  split_ifs with hsnap htype htcn
  · simp only [false_iff]
    rintro ⟨h1, h2, h3, h4, h5, h6, h7, h8, _⟩
    rcases hsnap with h | h | h | h | h | h | h | h
    · exact h h1
    · exact h h2
    · exact h h3
    · exact h h4
    · exact h h5
    · exact h h6
    · exact h h7
    · exact h h8
  · simp only [false_iff]
    rintro ⟨_, _, _, _, _, _, _, _, ht, _⟩
    rcases ht with ht | ht
    · exact htype.1 ht
    · exact htype.2 ht
  · push_neg at hsnap htype
    have hc : bpdu.type = CONFIG_BPDU_TYPE := by
      by_cases h : bpdu.type = CONFIG_BPDU_TYPE
      · exact h
      · exact absurd (htype h) htcn
    simp only []
    split_ifs with hvlan hclamp
    · simp only [false_iff]
      rintro ⟨_, _, _, _, _, _, _, _, _, hcfg⟩
      obtain ⟨ht2, hv1, hv2⟩ := hcfg hc
      rcases hvlan with h | h | h
      · exact h ht2
      · exact absurd hv1 (by omega)
      · exact absurd hv2 (by omega)
    · push_neg at hvlan
      simp only [true_iff]
      exact ⟨hsnap.1, hsnap.2.1, hsnap.2.2.1, hsnap.2.2.2.1, hsnap.2.2.2.2.1,
        hsnap.2.2.2.2.2.1, hsnap.2.2.2.2.2.2.1, hsnap.2.2.2.2.2.2.2,
        Or.inl hc, fun _ => ⟨hvlan.1, by omega, by omega⟩⟩
    · push_neg at hvlan
      simp only [true_iff]
      exact ⟨hsnap.1, hsnap.2.1, hsnap.2.2.1, hsnap.2.2.2.1, hsnap.2.2.2.2.1,
        hsnap.2.2.2.2.2.1, hsnap.2.2.2.2.2.2.1, hsnap.2.2.2.2.2.2.2,
        Or.inl hc, fun _ => ⟨hvlan.1, by omega, by omega⟩⟩
  · push_neg at hsnap htype htcn
    simp only [true_iff]
    refine ⟨hsnap.1, hsnap.2.1, hsnap.2.2.1, hsnap.2.2.2.1, hsnap.2.2.2.2.1,
      hsnap.2.2.2.2.2.1, hsnap.2.2.2.2.2.2.1, hsnap.2.2.2.2.2.2.2,
      Or.inr htcn, ?_⟩
    intro hc
    rw [hc] at htcn
    exact absurd htcn (by decide)

/-- Witness for C6: the characterization instantiated at the concrete
PVST+ Config frame carrying VLAN id 4095. -/
theorem c6_validate_pvst_characterization_witness :
    (stputil_validate_pvst_bpdu example_pvst_vlan4095_bpdu).1 = true ↔
      (example_pvst_vlan4095_bpdu.snap_header.destination_address_DSAP = LSAP_SNAP_LLC ∧
       example_pvst_vlan4095_bpdu.snap_header.source_address_SSAP = LSAP_SNAP_LLC ∧
       example_pvst_vlan4095_bpdu.snap_header.llc_frame_type = UNNUMBERED_INFORMATION ∧
       example_pvst_vlan4095_bpdu.snap_header.protocol_id_filler0 = 0x00 ∧
       example_pvst_vlan4095_bpdu.snap_header.protocol_id_filler1 = 0x00 ∧
       example_pvst_vlan4095_bpdu.snap_header.protocol_id_filler2 = 0x0c ∧
       bswap16 example_pvst_vlan4095_bpdu.snap_header.protocol_id = SNAP_CISCO_PVST_ID ∧
       bswap16 example_pvst_vlan4095_bpdu.protocol_id = 0 ∧
       (example_pvst_vlan4095_bpdu.type = CONFIG_BPDU_TYPE ∨
        example_pvst_vlan4095_bpdu.type = TCN_BPDU_TYPE) ∧
       (example_pvst_vlan4095_bpdu.type = CONFIG_BPDU_TYPE →
         (bswap16 example_pvst_vlan4095_bpdu.tag_length = 2 ∧
          MIN_VLAN_ID ≤ bswap16 example_pvst_vlan4095_bpdu.vlan_id ∧
          bswap16 example_pvst_vlan4095_bpdu.vlan_id ≤ MAX_VLAN_ID))) :=
  c6_validate_pvst_characterization example_pvst_vlan4095_bpdu

/-- Counterexample for C6 as stated: a fully well-formed PVST+ Config
frame whose VLAN id is 4095 — which the claim says must be rejected —
is accepted by `stputil_validate_pvst_bpdu`. -/
theorem c6_counterexample :
    bswap16 example_pvst_vlan4095_bpdu.vlan_id = 4095 ∧
    example_pvst_vlan4095_bpdu.type = CONFIG_BPDU_TYPE ∧
    (stputil_validate_pvst_bpdu example_pvst_vlan4095_bpdu).1 = true := by decide

/-- Auxiliary: byte swap of a decomposed 16-bit value. -/
theorem bswap16_eq (a b : Nat) (ha : a < 256) (hb : b < 256) :
    bswap16 (a * 256 + b) = b * 256 + a := by
  unfold bswap16
  have e1 : (a * 256 + b) % 256 = b := by omega
  have e2 : (a * 256 + b) / 256 = a := by omega
  rw [e1, e2, Nat.mod_eq_of_lt ha]

/-- Auxiliary: byte-swapping a 16-bit value twice is the identity. -/
theorem bswap16_bswap16 (v : Nat) (h : v < 2 ^ 16) : bswap16 (bswap16 v) = v := by
  have h1 : bswap16 v = (v % 256) * 256 + v / 256 := by
    unfold bswap16
    omega
  rw [h1, bswap16_eq (v % 256) (v / 256) (by omega) (by omega)]
  omega

/-- Auxiliary: byte swap of a decomposed 32-bit value. -/
theorem bswap32_eq (b3 b2 b1 b0 : Nat) (h3 : b3 < 256) (h2 : b2 < 256)
    (h1 : b1 < 256) (h0 : b0 < 256) :
    bswap32 (b3 * 16777216 + b2 * 65536 + b1 * 256 + b0)
      = b0 * 16777216 + b1 * 65536 + b2 * 256 + b3 := by
  unfold bswap32
  simp only [show (2 : Nat) ^ 24 = 16777216 from rfl, show (2 : Nat) ^ 16 = 65536 from rfl,
    show (2 : Nat) ^ 8 = 256 from rfl]
  have e0 : (b3 * 16777216 + b2 * 65536 + b1 * 256 + b0) % 256 = b0 := by omega
  have e1 : (b3 * 16777216 + b2 * 65536 + b1 * 256 + b0) / 256 % 256 = b1 := by omega
  have e2 : (b3 * 16777216 + b2 * 65536 + b1 * 256 + b0) / 65536 % 256 = b2 := by omega
  have e3 : (b3 * 16777216 + b2 * 65536 + b1 * 256 + b0) / 16777216 % 256 = b3 := by omega
  rw [e0, e1, e2, e3]

/-- Auxiliary: byte-swapping a 32-bit value twice is the identity. -/
theorem bswap32_bswap32 (v : Nat) (h : v < 2 ^ 32) : bswap32 (bswap32 v) = v := by
  have hd : v / 256 / 256 = v / 65536 := by
    rw [Nat.div_div_eq_div_mul]
  have he : v / 65536 / 256 = v / 16777216 := by
    rw [Nat.div_div_eq_div_mul]
  have h1 : bswap32 v = (v % 256) * 16777216 + (v / 256 % 256) * 65536 +
      (v / 65536 % 256) * 256 + v / 16777216 := by
    unfold bswap32
    simp only [show (2 : Nat) ^ 24 = 16777216 from rfl, show (2 : Nat) ^ 16 = 65536 from rfl,
      show (2 : Nat) ^ 8 = 256 from rfl]
    omega
  rw [h1, bswap32_eq (v % 256) (v / 256 % 256) (v / 65536 % 256) (v / 16777216)
    (by omega) (by omega) (by omega) (by omega)]
  omega

/-- Auxiliary: the MAC byte swap is an involution on in-range
addresses. -/
theorem mac_swap_mac_swap (m : MAC_ADDRESS) (h1 : m.ulong < 2 ^ 32)
    (h2 : m.ushort < 2 ^ 16) : mac_swap (mac_swap m) = m := by
  unfold mac_swap
  simp only
  rw [bswap32_bswap32 m.ulong h1, bswap16_bswap16 m.ushort h2]

/-- Auxiliary: reading back the 16-bit word written into the
priority/system-id bitfields returns the word, for 16-bit words. -/
theorem bridge_id_word_set_word (b : BRIDGE_IDENTIFIER) (w : Nat) (h : w < 2 ^ 16) :
    bridge_id_word (bridge_id_set_word b w) = w := by
  unfold bridge_id_word bridge_id_set_word
  simp only
  omega

/-- Auxiliary: the priority/system-id word swap is an involution on
identifiers with in-range bitfields, and it never touches the MAC. -/
theorem bridge_id_swap_word_swap_word (b : BRIDGE_IDENTIFIER)
    (hp : b.priority < 16) (hs : b.system_id < 4096) :
    bridge_id_swap_word (bridge_id_swap_word b) = b := by
  have hw : bridge_id_word b < 2 ^ 16 := by
    unfold bridge_id_word
    omega
  have hsw : bswap16 (bridge_id_word b) < 2 ^ 16 := by
    unfold bswap16
    omega
  unfold bridge_id_swap_word
  rw [bridge_id_word_set_word b _ hsw, bswap16_bswap16 _ hw]
  unfold bridge_id_set_word bridge_id_word
  simp only
  have hp2 : (b.priority * 4096 + b.system_id) / 4096 % 16 = b.priority := by omega
  have hs2 : (b.priority * 4096 + b.system_id) % 4096 = b.system_id := by omega
  rw [hp2, hs2]

/-- Auxiliary: the exact composition the codec applies to a bridge
identifier — MAC swap plus word swap on encode, then again on decode —
is the identity on identifiers with in-range fields. -/
theorem bridge_codec_roundtrip (x : BRIDGE_IDENTIFIER)
    (hp : x.priority < 16) (hs : x.system_id < 4096)
    (hu : x.address.ulong < 2 ^ 32) (hh : x.address.ushort < 2 ^ 16) :
    bridge_id_swap_word
      { bridge_id_swap_word { x with address := mac_swap x.address } with
        address := mac_swap (bridge_id_swap_word
          { x with address := mac_swap x.address }).address } = x := by
  unfold bridge_id_swap_word bridge_id_set_word bridge_id_word
  simp only
  rw [mac_swap_mac_swap x.address hu hh]
  have hw : x.priority * 4096 + x.system_id < 2 ^ 16 := by omega
  have hkey : bswap16 (x.priority * 4096 + x.system_id) / 4096 % 16 * 4096 +
      bswap16 (x.priority * 4096 + x.system_id) % 4096
      = bswap16 (x.priority * 4096 + x.system_id) := by
    have hsw : bswap16 (x.priority * 4096 + x.system_id) < 2 ^ 16 := by
      unfold bswap16
      omega
    omega
  rw [hkey, bswap16_bswap16 _ hw]
  have hp2 : (x.priority * 4096 + x.system_id) / 4096 % 16 = x.priority := by omega
  have hs2 : (x.priority * 4096 + x.system_id) % 4096 = x.system_id := by omega
  rw [hp2, hs2]

/-- Claim C7, corrected.  Encoding a Config BPDU with
`stputil_encode_bpdu` and decoding the result with
`stputil_decode_bpdu` reproduces every field EXCEPT the four timer
fields: `message_age`, `max_age`, `hello_time` and `forward_delay`
come back shifted right by 8 bits, because the decoder converts the
wire 1/256-second encoding to whole seconds while the encoder applies
no inverse shift. -/
theorem c7_encode_decode_shifts_timers (b : STP_CONFIG_BPDU)
    (htype : b.type = CONFIG_BPDU_TYPE)
    (hpid : b.protocol_id < 2 ^ 16)
    (hrp : b.root_id.priority < 16) (hrs : b.root_id.system_id < 4096)
    (hru : b.root_id.address.ulong < 2 ^ 32) (hrh : b.root_id.address.ushort < 2 ^ 16)
    (hbp : b.bridge_id.priority < 16) (hbs : b.bridge_id.system_id < 4096)
    (hbu : b.bridge_id.address.ulong < 2 ^ 32) (hbh : b.bridge_id.address.ushort < 2 ^ 16)
    (hc : b.root_path_cost < 2 ^ 32) (hport : b.port_id < 2 ^ 16)
    (hma : b.message_age < 2 ^ 16) (hxa : b.max_age < 2 ^ 16)
    (hht : b.hello_time < 2 ^ 16) (hfd : b.forward_delay < 2 ^ 16) :
    stputil_decode_bpdu (stputil_encode_bpdu b) =
      { b with message_age := b.message_age / 256,
               max_age := b.max_age / 256,
               hello_time := b.hello_time / 256,
               forward_delay := b.forward_delay / 256 } := by
  simp only [stputil_encode_bpdu, stputil_decode_bpdu, htype, CONFIG_BPDU_TYPE,
    RSTP_BPDU_TYPE]
  norm_num
  refine ⟨?_, ?_, ?_, ?_, ?_, ?_, ?_, ?_, ?_⟩
  · exact bswap16_bswap16 _ hpid
  · exact bridge_codec_roundtrip b.root_id hrp hrs hru hrh
  · exact bswap32_bswap32 _ hc
  · exact bridge_codec_roundtrip b.bridge_id hbp hbs hbu hbh
  · exact bswap16_bswap16 _ hport
  · rw [bswap16_bswap16 _ hma]
  · rw [bswap16_bswap16 _ hxa]
  · rw [bswap16_bswap16 _ hht]
  · rw [bswap16_bswap16 _ hfd]

/-- Witness for C7 at the concrete Config BPDU: all fields round-trip
except the timer fields, which come back divided by 256. -/
theorem c7_encode_decode_shifts_timers_witness :
    stputil_decode_bpdu (stputil_encode_bpdu example_codec_bpdu) =
      { example_codec_bpdu with
        message_age := example_codec_bpdu.message_age / 256,
        max_age := example_codec_bpdu.max_age / 256,
        hello_time := example_codec_bpdu.hello_time / 256,
        forward_delay := example_codec_bpdu.forward_delay / 256 } :=
  c7_encode_decode_shifts_timers example_codec_bpdu rfl (by decide) (by decide)
    (by decide) (by decide) (by decide) (by decide) (by decide) (by decide)
    (by decide) (by decide) (by decide) (by decide) (by decide) (by decide)
    (by decide)

/-- Counterexample for C7 as stated: the concrete Config BPDU with
`message_age = 256` (1 second in wire units) is not reproduced by
encode-then-decode — the decoded `message_age` is 1. -/
theorem c7_counterexample :
    example_codec_bpdu.message_age = 256 ∧
    (stputil_decode_bpdu (stputil_encode_bpdu example_codec_bpdu)).message_age = 1 ∧
    stputil_decode_bpdu (stputil_encode_bpdu example_codec_bpdu) ≠ example_codec_bpdu := by
  decide

/-- Claim C8, confirmed.  `stputil_get_path_cost` agrees with the
specification's path-cost table on every port speed and both modes:
the eight listed speeds map to the 802.1t or legacy constants, and
every other speed yields 0. -/
theorem c8_path_cost_table (port_speed : STP_PORT_SPEED) (extend : Bool) :
    stputil_get_path_cost port_speed extend = spec_path_cost_table port_speed extend := by
  cases port_speed <;> cases extend <;> rfl

/-- Claim C9: the code is wrong.  All three IPC handlers guard the
instance index with `inst_id > g_stp_instances` (strictly greater), so
a message carrying `inst_id = maxInstances` — out of bounds for the
class array of `maxInstances` slots — is NOT rejected, here shown at
`maxInstances = 255`. -/
theorem c9_instance_bound_off_by_one :
    stpmgr_process_vlan_config_msg_rejects 255 255 = false ∧
    stpmgr_process_vlan_intf_config_msg_rejects 255 255 = false ∧
    stpmgr_process_vlan_mem_config_msg_rejects 255 255 = false ∧
    instance_index_in_bounds 255 255 = false := by decide

/-- Claim C10, confirmed.  `stputil_send_bpdu` increments the
per-port transmit counter of the requested type unconditionally, and
invokes the packet transmit capability iff the port carries some VLAN
untagged: when `stputil_get_untag_vlan` returns `VLAN_ID_INVALID` the
function returns right after counting, so the counters count attempts,
not transmitted frames. -/
theorem c10_send_bpdu_counts_attempts (classes : List UNTAG_CLASS)
    (port type tx_config_bpdu tx_tcn_bpdu : Nat) :
    (stputil_send_bpdu classes port type tx_config_bpdu tx_tcn_bpdu).tx_config_bpdu
      = (if type = CONFIG_BPDU_TYPE then (tx_config_bpdu + 1) % 2 ^ 32
         else tx_config_bpdu) ∧
    (stputil_send_bpdu classes port type tx_config_bpdu tx_tcn_bpdu).tx_tcn_bpdu
      = (if type = CONFIG_BPDU_TYPE then tx_tcn_bpdu
         else (tx_tcn_bpdu + 1) % 2 ^ 32) ∧
    ((stputil_send_bpdu classes port type tx_config_bpdu tx_tcn_bpdu).tx_invoked = false ↔
      stputil_get_untag_vlan classes port = VLAN_ID_INVALID) := by
  unfold stputil_send_bpdu
  by_cases htype : type = CONFIG_BPDU_TYPE <;>
    by_cases hvlan : stputil_get_untag_vlan classes port = VLAN_ID_INVALID <;>
      simp [htype, hvlan]
